import Mathlib

set_option maxRecDepth 8000

/-! Shallow embedding of the schedule-reconciliation engine of `app.py`
(repository `escala-automatica`): the schedule text parser, the date
ordinal calendar, the work-day counter, the header/column resolver and the
workbook processing pipeline, together with theorems about them.  The two
external collaborators (the `dateutil` string-date parser and the
`holidays` national-holiday provider) are modelled as function parameters,
since the engine treats them as opaque. -/

-- § text helpers: Python `str.upper` on the relevant alphabet, substring test

def upChar (c : Char) : Char :=
  if 'a' ≤ c ∧ c ≤ 'z' then Char.ofNat (c.toNat - 32)
  else if c = 'á' then 'Á'
  else if c = 'é' then 'É'
  else if c = 'í' then 'Í'
  else if c = 'ó' then 'Ó'
  else if c = 'ú' then 'Ú'
  else if c = 'â' then 'Â'
  else if c = 'ê' then 'Ê'
  else if c = 'ô' then 'Ô'
  else if c = 'ã' then 'Ã'
  else if c = 'õ' then 'Õ'
  else if c = 'ç' then 'Ç'
  else c

def upStr (s : String) : String := String.mk (s.data.map upChar)

def startsWithL : List Char → List Char → Bool
  | [], _ => true
  | _ :: _, [] => false
  | p :: ps, c :: cs => p == c && startsWithL ps cs

/-- Python's substring test `pat in s`. -/
def containsSub : List Char → List Char → Bool
  | pat, [] => startsWithL pat []
  | pat, c :: rest => startsWithL pat (c :: rest) || containsSub pat rest

/-- first-match association-list lookup (Python `dict` lookup). -/
def alookup {α : Type} : List (String × α) → String → Option α
  | [], _ => none
  | (k, v) :: rest, key => if k = key then some v else alookup rest key

/-- Python `str.strip()` (whitespace at both ends). -/
def trimStr (s : String) : String :=
  String.mk (((s.data.dropWhile Char.isWhitespace).reverse.dropWhile Char.isWhitespace).reverse)

def digVal (c : Char) : Nat := c.toNat - 48

def digitsToNat (l : List Char) : Nat := l.foldl (fun acc c => acc * 10 + digVal c) 0

def pad2 (n : Nat) : String := if n < 10 then "0" ++ toString n else toString n

def pad4 (n : Nat) : String :=
  if n < 10 then "000" ++ toString n
  else if n < 100 then "00" ++ toString n
  else if n < 1000 then "0" ++ toString n
  else toString n

def apos : String := (Char.ofNat 39).toString

-- § schedule text parser (`parse_schedule_days`, app.py lines 97-130)

/-- the `PT_DOW` weekday-token dictionary (Mon=0 .. Sun=6). -/
def PT_DOW : String → Option Nat
  | "SEG" => some 0
  | "TER" => some 1
  | "QUA" => some 2
  | "QUI" => some 3
  | "SEX" => some 4
  | "SAB" => some 5
  | "SÁB" => some 5
  | "DOM" => some 6
  | _ => none

/-- the alternatives of `DOW_TOKENS_RE`, in order. -/
def tokPats : List String := [("SEG"), ("TER"), ("QUA"), ("QUI"), ("SEX"), ("SAB"), ("SÁB"), ("DOM")]

def matchTok (l : List Char) : Option String := tokPats.find? (fun t => startsWithL t.data l)

/-- `re.findall` of the weekday-token alternation: scan left to right, on a
match consume its three characters, otherwise advance one character.  The
fuel argument (at least the list length) makes the recursion structural. -/
def findTokensAux : Nat → List Char → List String
  | 0, _ => []
  | _, [] => []
  | fuel + 1, c :: rest =>
    match matchTok (c :: rest) with
    | some t => t :: findTokensAux fuel (rest.drop 2)
    | none => findTokensAux fuel rest

def findTokens (l : List Char) : List String := findTokensAux l.length l

def canonSab (t : String) : String := if t = "SÁB" then "SAB" else t

/-- `{PT_DOW[t] for t in tok if t in PT_DOW}`. -/
def daysOfTokens (tok : List String) : Finset Nat :=
  tok.foldr
    (fun t acc =>
      match PT_DOW t with
      | some n => insert n acc
      | none => acc)
    ∅

def folgaKW : String := "FOLGA"

def sepAKW : String := " A "

/-- the range branch: `PT_DOW.get(tok[0])`, `PT_DOW.get(tok[1])`, closed
interval or wraparound. -/
def rangeDays (t0 t1 : String) : Option (Finset Nat) :=
  match PT_DOW t0, PT_DOW t1 with
  | some a, some b =>
    if a ≤ b then some (Finset.Icc a b) else some (Finset.Icc a 6 ∪ Finset.Icc 0 b)
  | _, _ => none

/-- `parse_schedule_days` on a string cell: uppercase, find tokens, then the
FOLGA branch, the " A " range branch, or the enumeration branch. -/
def parse_schedule_days (text : String) : Option (Finset Nat) :=
  match findTokens (upStr text).data with
  | [] => none
  | t :: ts =>
    let tok := (t :: ts).map canonSab
    if containsSub folgaKW.data (upStr text).data then
      some (Finset.range 7 \ daysOfTokens tok)
    else
      match tok, containsSub sepAKW.data (upStr text).data with
      | t0 :: t1 :: _, true => rangeDays t0 t1
      | tokAll, _ =>
        let days := daysOfTokens tokAll
        if days = ∅ then none else some days

-- § calendar: proleptic Gregorian day ordinals (CPython `date.toordinal`)

def isLeap (y : Nat) : Bool := y % 4 == 0 && (y % 100 != 0 || y % 400 == 0)

def daysInMonth (y m : Nat) : Nat :=
  if m = 2 then (if isLeap y then 29 else 28)
  else if m = 4 ∨ m = 6 ∨ m = 9 ∨ m = 11 then 30
  else 31

def daysBeforeMonth (y m : Nat) : Nat :=
  ((List.range (m - 1)).map (fun i => daysInMonth y (i + 1))).sum

/-- `date(y, m, d).toordinal()`: day number with 0001-01-01 = 1. -/
def toOrdinal (y m d : Nat) : Nat :=
  365 * (y - 1) + (y - 1) / 4 - (y - 1) / 100 + (y - 1) / 400 + daysBeforeMonth y m + d

/-- `date.weekday()` on an ordinal: Monday = 0 .. Sunday = 6. -/
def weekday (n : Nat) : Nat := (n + 6) % 7

/-- `month_bounds`, as the pair of day ordinals of the first and last day. -/
def month_bounds (y m : Nat) : Nat × Nat := (toOrdinal y m 1, toOrdinal y m (daysInMonth y m))

-- § work-day counter (`count_workdays`, app.py lines 138-148)

def countLoop (working hol : Finset Nat) : Nat → Nat → Nat
  | 0, _ => 0
  | n + 1, d => (if weekday d ∈ working ∧ d ∉ hol then 1 else 0) + countLoop working hol n (d + 1)

/-- `count_workdays(start, end, working_days, holiday_set)` over day ordinals. -/
def count_workdays (start end_ : Nat) (working_days holiday_set : Finset Nat) : Nat :=
  if end_ < start then 0
  else countLoop working_days holiday_set (end_ + 1 - start) start

-- § sheet-name month parser (`parse_sheet_month_year`, app.py lines 151-160)

/-- `re.match(r"^\s*(\d{1,2})\.(\d{4})\s*$", name)` and the 1..12 month check;
returns `(year, month)`. -/
def parse_sheet_month_year (sname : String) : Option (Nat × Nat) :=
  let cs := sname.data.dropWhile (fun c => c.isWhitespace)
  let ds := cs.takeWhile (fun c => c.isDigit)
  let rest := cs.dropWhile (fun c => c.isDigit)
  if ds.length = 0 ∨ 2 < ds.length then none
  else
    match rest with
    | '.' :: rest2 =>
      let ys := rest2.takeWhile (fun c => c.isDigit)
      let rest3 := rest2.dropWhile (fun c => c.isDigit)
      if ys.length = 4 ∧ rest3.all (fun c => c.isWhitespace) then
        let month := digitsToNat ds
        let year := digitsToNat ys
        if 1 ≤ month ∧ month ≤ 12 then some (year, month) else none
      else none
    | _ => none

-- § cell values, sheets and workbooks (the openpyxl grid abstraction)

/-- a cell value: `None`, a string, a date/datetime (modelled by its date
components), or an integer number. -/
inductive CellValue where
  | blank
  | str (s : String)
  | date (y m d : Nat)
  | num (n : Int)
deriving DecidableEq

/-- Python `str(value)` on a cell value (`""` for `None`); the date and
number renderings contain no weekday tokens and no header text. -/
def cellStr : CellValue → String
  | .blank => ""
  | .str s => s
  | .date y m d => pad4 y ++ "-" ++ pad2 m ++ "-" ++ pad2 d ++ " 00:00:00"
  | .num n => toString n

/-- header-cell normalization `("" if v is None else str(v)).strip().upper()`. -/
def normCell (v : CellValue) : String := upStr (trimStr (cellStr v))

def normUp (s : String) : String := upStr (trimStr s)

structure Sheet where
  cells : Nat → Nat → CellValue
  maxRow : Nat
  maxCol : Nat

/-- writing a cell; like openpyxl it extends the sheet's dimensions. -/
def setCell (ws : Sheet) (r c : Nat) (v : CellValue) : Sheet :=
  { cells := fun r2 c2 => if r2 = r ∧ c2 = c then v else ws.cells r2 c2,
    maxRow := max ws.maxRow r,
    maxCol := max ws.maxCol c }

/-- a workbook: named sheets in order (`wb[name]` is first-match lookup). -/
def Workbook : Type := List (String × Sheet)

/-- a calendar date as carried by the extra-holiday set. -/
structure Date where
  year : Nat
  month : Nat
  day : Nat
deriving DecidableEq

def Date.ord (d : Date) : Nat := toOrdinal d.year d.month d.day

-- § date parser (`safe_parse_date`, app.py lines 82-94)

/-- `safe_parse_date`; `dparse` models `dateutil.parser.parse(s, dayfirst=True).date()`
as an optional day ordinal. -/
def safe_parse_date (dparse : String → Option Nat) : CellValue → Option Nat
  | .blank => none
  | .str s => if trimStr s = "" then none else dparse (trimStr s)
  | .date y m d => some (toOrdinal y m d)
  | .num n => dparse (toString n)

/-- `parse_schedule_days` applied to a raw cell value: `None` gives `None`,
and non-string values stringify to token-free text (digits, a date
rendering), on which the token scan finds nothing. -/
def parse_schedule_cell : CellValue → Option (Finset Nat)
  | .str s => parse_schedule_days s
  | _ => none

-- § header/column resolver (app.py lines 163-191)

def rowNorm (ws : Sheet) (r : Nat) : List String :=
  (List.range ws.maxCol).map (fun j => normCell (ws.cells r (j + 1)))

/-- Python-dict insertion: overwrite in place if the key exists, else append. -/
def mapInsert (m : List (String × Nat)) (k : String) (v : Nat) : List (String × Nat) :=
  if (alookup m k).isSome then m.map (fun q => if q.1 = k then (k, v) else q)
  else m ++ [(k, v)]

def buildMap (normalized : List String) : List (String × Nat) :=
  normalized.enum.foldl (fun m p => if p.2 = "" then m else mapInsert m p.2 (p.1 + 1)) []

/-- `find_header_row_and_map`: scan the first 50 rows for a row whose
normalized texts include both sentinel headers; `none` models the raised
`ValueError`. -/
def find_header_row_and_map (ws : Sheet) : Option (Nat × List (String × Nat)) :=
  (List.range 50).findSome? (fun i =>
    let normalized := rowNorm ws (i + 1)
    if ("INÍCIO ESCALA NOVA") ∈ normalized ∧ ("ESCALA NOVA") ∈ normalized then
      some (i + 1, buildMap normalized)
    else none)

/-- `ensure_column`: return the existing column, or create one at the end
(writing the header name into the header row and extending the map). -/
def ensure_column (ws : Sheet) (header_row : Nat) (header_map : List (String × Nat))
    (header_name : String) : Sheet × List (String × Nat) × Nat :=
  let key := normUp header_name
  match alookup header_map key with
  | some c => (ws, header_map, c)
  | none =>
    let new_col := ws.maxCol + 1
    (setCell ws header_row new_col (.str header_name), header_map ++ [(key, new_col)], new_col)

-- § reconciliation engine (`process_workbook`, app.py lines 214-354)

def nextMonth (year month : Nat) : Nat × Nat :=
  if month = 12 then (year + 1, 1) else (year, month + 1)

def oldScaleHeader (y m : Nat) : String := "ESCALA " ++ pad2 m ++ "." ++ toString y

def hOld (y m : Nat) : String :=
  "DIAS ÚTEIS " ++ pad2 m ++ "." ++ toString y ++ " (ESCALA ANTIGA)"

def hNew (y m : Nat) : String :=
  "DIAS ÚTEIS " ++ pad2 m ++ "." ++ toString y ++ " (ESCALA NOVA)"

def hDue (y m : Nat) : String := "DIAS DEVIDOS " ++ pad2 m ++ "." ++ toString y

def hTotal : String := "TOTAL DIAS DEVIDOS"

def okLine (sname : String) (processed errors : Nat) : String :=
  "[OK] Aba " ++ apos ++ sname ++ apos ++ ": " ++ toString processed ++
    " linhas atualizadas, " ++ toString errors ++ " linhas com erro (data/escala inválida)."

def errHeaderLine (sname : String) : String :=
  "[ERRO] Aba " ++ apos ++ sname ++ apos ++ ": Não encontrei a linha de cabeçalho (preciso de " ++
    apos ++ "INÍCIO ESCALA NOVA" ++ apos ++ " e " ++ apos ++ "ESCALA NOVA" ++ apos ++ ")."

def errOldLine (sname header : String) : String :=
  "[ERRO] Aba " ++ apos ++ sname ++ apos ++ ": não achei a coluna " ++
    apos ++ header ++ apos ++ "."

def ignLine (sname : String) : String :=
  "[IGNORADO] Aba " ++ apos ++ sname ++ apos ++ " não está no formato MM.AAAA (ex: 01.2026)."

def avisoLine : String :=
  "[AVISO] Nenhuma aba foi atualizada. Verifique se as abas estão no formato MM.AAAA (ex: 01.2026) e se os cabeçalhos existem."

/-- the per-row fixed data: holiday set, date parser, the two target months,
the three input columns and the seven output columns. -/
structure RowCtx where
  hset : Finset Nat
  dparse : String → Option Nat
  y1 : Nat
  m1 : Nat
  y2 : Nat
  m2 : Nat
  colOld : Nat
  colNew : Nat
  colStart : Nat
  cOld1 : Nat
  cNew1 : Nat
  cDue1 : Nat
  cOld2 : Nat
  cNew2 : Nat
  cDue2 : Nat
  cTotal : Nat

/-- the per-month computation (app.py lines 314-321 and 323-330): zero if the
start date is after the month end, else count both schedules from
`max(start, month_start)` to the month end; due = old − new. -/
def monthCalc (hset daysOld daysNew : Finset Nat) (startOrd y m : Nat) : Nat × Nat × Int :=
  let b := month_bounds y m
  if b.2 < startOrd then (0, 0, 0)
  else
    let calcStart := max startOrd b.1
    let o := count_workdays calcStart b.2 daysOld hset
    let n := count_workdays calcStart b.2 daysNew hset
    (o, n, (o : Int) - (n : Int))

/-- one iteration of the row loop (app.py lines 295-344); the state is the
sheet and the processed/errors counters. -/
def processRow (ctx : RowCtx) (st : Sheet × Nat × Nat) (r : Nat) : Sheet × Nat × Nat :=
  let ws := st.1
  let processed := st.2.1
  let errors := st.2.2
  let vOld := ws.cells r ctx.colOld
  let vNew := ws.cells r ctx.colNew
  let vStart := ws.cells r ctx.colStart
  if vOld = CellValue.blank ∧ vNew = CellValue.blank ∧ vStart = CellValue.blank then
    (ws, processed, errors)
  else
    match safe_parse_date ctx.dparse vStart with
    | none => (ws, processed, errors + 1)
    | some startOrd =>
      match parse_schedule_cell vOld, parse_schedule_cell vNew with
      | some daysOld, some daysNew =>
        let q1 := monthCalc ctx.hset daysOld daysNew startOrd ctx.y1 ctx.m1
        let q2 := monthCalc ctx.hset daysOld daysNew startOrd ctx.y2 ctx.m2
        let total := q1.2.2 + q2.2.2
        let wsA := setCell ws r ctx.cOld1 (.num (q1.1 : Int))
        let wsB := setCell wsA r ctx.cNew1 (.num (q1.2.1 : Int))
        let wsC := setCell wsB r ctx.cDue1 (.num q1.2.2)
        let wsD := setCell wsC r ctx.cOld2 (.num (q2.1 : Int))
        let wsE := setCell wsD r ctx.cNew2 (.num (q2.2.1 : Int))
        let wsF := setCell wsE r ctx.cDue2 (.num q2.2.2)
        let wsG := setCell wsF r ctx.cTotal (.num total)
        (wsG, processed + 1, errors)
      | _, _ => (ws, processed, errors + 1)

/-- one sheet (app.py lines 248-347): resolve the header, require the
sheet-month old-schedule column, ensure the seven output columns, run the row
loop; the Bool is the contribution to `updated_any`. -/
def processSheet (hset : Finset Nat) (dparse : String → Option Nat) (ws : Sheet)
    (year monthSheet : Nat) (sname : String) : Sheet × String × Bool :=
  match find_header_row_and_map ws with
  | none => (ws, errHeaderLine sname, false)
  | some hdr =>
    let headerRow := hdr.1
    let headerMap := hdr.2
    match alookup headerMap (upStr (oldScaleHeader year monthSheet)) with
    | none => (ws, errOldLine sname (oldScaleHeader year monthSheet), false)
    | some colOld =>
      let colNew := (alookup headerMap ("ESCALA NOVA")).getD 0
      let colStart := (alookup headerMap ("INÍCIO ESCALA NOVA")).getD 0
      let p2 := nextMonth year monthSheet
      let r1 := ensure_column ws headerRow headerMap (hOld year monthSheet)
      let r2 := ensure_column r1.1 headerRow r1.2.1 (hNew year monthSheet)
      let r3 := ensure_column r2.1 headerRow r2.2.1 (hDue year monthSheet)
      let r4 := ensure_column r3.1 headerRow r3.2.1 (hOld p2.1 p2.2)
      let r5 := ensure_column r4.1 headerRow r4.2.1 (hNew p2.1 p2.2)
      let r6 := ensure_column r5.1 headerRow r5.2.1 (hDue p2.1 p2.2)
      let r7 := ensure_column r6.1 headerRow r6.2.1 hTotal
      let ctx : RowCtx :=
        ⟨hset, dparse, year, monthSheet, p2.1, p2.2, colOld, colNew, colStart,
          r1.2.2, r2.2.2, r3.2.2, r4.2.2, r5.2.2, r6.2.2, r7.2.2⟩
      let rows := List.range' (headerRow + 1) (r7.1.maxRow - headerRow)
      let res := rows.foldl (processRow ctx) (r7.1, 0, 0)
      (res.1, okLine sname res.2.1 res.2.2, true)

def replaceFirst : Workbook → String → Sheet → Workbook
  | [], _, _ => []
  | (k, s) :: rest, n, s2 => if k = n then (k, s2) :: rest else (k, s) :: replaceFirst rest n s2

/-- `sheet_names or wb.sheetnames` (an empty selection is falsy in Python). -/
def targetSheets (wb : Workbook) (sheetNames : Option (List String)) : List String :=
  match sheetNames with
  | some (x :: xs) => x :: xs
  | _ => wb.map Prod.fst

/-- the body of the per-sheet loop (app.py lines 238-347) for one sheet name:
skip silently if absent from the workbook, log IGNORADO if the name is not
MM.AAAA, otherwise process the sheet and write it back. -/
def stepName (hset : Finset Nat) (dparse : String → Option Nat) (wb : Workbook)
    (n : String) : Workbook × Option String × Bool :=
  match alookup wb n with
  | none => (wb, none, false)
  | some ws =>
    match parse_sheet_month_year n with
    | none => (wb, some (ignLine n), false)
    | some ym =>
      let pr := processSheet hset dparse ws ym.1 ym.2 n
      (replaceFirst wb n pr.1, some pr.2.1, pr.2.2)

def runSheets (hset : Finset Nat) (dparse : String → Option Nat) :
    List String → Workbook → List String → Bool → Workbook × List String × Bool
  | [], wb, logs, updated => (wb, logs, updated)
  | n :: rest, wb, logs, updated =>
    let s := stepName hset dparse wb n
    runSheets hset dparse rest s.1 (logs ++ s.2.1.toList) (updated || s.2.2)

/-- `process_workbook` (app.py lines 214-354); `provider` models
`holidays.Brazil` as a years-to-ordinals set function. -/
def processWorkbook (provider : Finset Nat → Finset Nat) (dparse : String → Option Nat)
    (wb : Workbook) (sheetNames : Option (List String)) (extraHolidays : Finset Date) :
    Workbook × List String :=
  let targets := targetSheets wb sheetNames
  let sheetYM := targets.filterMap (fun n => (parse_sheet_month_year n).map (fun ym => (n, ym)))
  let years : Finset Nat :=
    (sheetYM.foldl (fun acc p => insert p.2.1 acc) ∅) ∪ extraHolidays.image Date.year
  let br := if years = ∅ then (∅ : Finset Nat) else provider years
  let holidaySet := br ∪ extraHolidays.image Date.ord
  let r := runSheets holidaySet dparse targets wb [] false
  (r.1, if r.2.2 then r.2.1 else r.2.1 ++ [avisoLine])

/-- the holiday set that `processWorkbook` builds before its sheet loop
(the same expression, factored for the statements about the loop). -/
def runHolidaySet (provider : Finset Nat → Finset Nat) (wb : Workbook)
    (sheetNames : Option (List String)) (extraHolidays : Finset Date) : Finset Nat :=
  let targets := targetSheets wb sheetNames
  let sheetYM := targets.filterMap (fun n => (parse_sheet_month_year n).map (fun ym => (n, ym)))
  let years : Finset Nat :=
    (sheetYM.foldl (fun acc p => insert p.2.1 acc) ∅) ∪ extraHolidays.image Date.year
  let br := if years = ∅ then (∅ : Finset Nat) else provider years
  br ∪ extraHolidays.image Date.ord

-- § concrete fixtures used by witnesses and counterexamples

/-- a trivial holiday provider (no holidays). -/
def prov0 : Finset Nat → Finset Nat := fun _ => ∅

/-- a trivial string-date parser (nothing parses). -/
def par0 : String → Option Nat := fun _ => none

/-- a sheet with only the three input columns in the header row and one
employee row: start date 2026-01-15, new schedule "SEG A SEX", January old
schedule "SEG A DOM". -/
def sheetA : Sheet :=
  { cells := fun r c =>
      if r = 1 ∧ c = 1 then .str ("INÍCIO ESCALA NOVA")
      else if r = 1 ∧ c = 2 then .str ("ESCALA NOVA")
      else if r = 1 ∧ c = 3 then .str ("ESCALA 01.2026")
      else if r = 2 ∧ c = 1 then .date 2026 1 15
      else if r = 2 ∧ c = 2 then .str ("SEG A SEX")
      else if r = 2 ∧ c = 3 then .str ("SEG A DOM")
      else .blank,
    maxRow := 2, maxCol := 3 }

def wbA : Workbook := [("01.2026", sheetA)]

/-- like `sheetA`, but the employee row has a blank new-schedule cell and a
blank start cell while the old-schedule cell is non-blank. -/
def sheetB : Sheet :=
  { cells := fun r c =>
      if r = 1 ∧ c = 1 then .str ("INÍCIO ESCALA NOVA")
      else if r = 1 ∧ c = 2 then .str ("ESCALA NOVA")
      else if r = 1 ∧ c = 3 then .str ("ESCALA 01.2026")
      else if r = 2 ∧ c = 3 then .str ("SEG")
      else .blank,
    maxRow := 2, maxCol := 3 }

def wbB : Workbook := [("01.2026", sheetB)]

/-- a sheet with no header row anywhere. -/
def sheetNoHdr : Sheet :=
  { cells := fun r c => if r = 1 ∧ c = 1 then .str ("X") else .blank,
    maxRow := 1, maxCol := 1 }

/-- a workbook whose second sheet has no header row. -/
def wbD : Workbook := [("01.2026", sheetA), ("02.2026", sheetNoHdr)]

/-- an empty one-by-one sheet. -/
def ws0 : Sheet := { cells := fun _ _ => .blank, maxRow := 1, maxCol := 1 }

/-- the row context for `sheetB`'s layout (input columns 1-3, output columns
4-10, no holidays). -/
def rctx0 : RowCtx := ⟨∅, par0, 2026, 1, 2026, 2, 3, 2, 1, 4, 5, 6, 7, 8, 9, 10⟩

-- § helper lemmas about the work-day counter

theorem countLoop_eq_countP (W H : Finset Nat) :
    ∀ (n s : Nat), countLoop W H n s
      = (List.range' s n).countP (fun d => decide (weekday d ∈ W ∧ d ∉ H)) := by
  intro n
  induction n with
  | zero => intro s; simp [countLoop]
  | succ k ih =>
    intro s
    rw [List.range'_succ]
    simp [countLoop, List.countP_cons, ih (s + 1)]
    by_cases h : weekday s ∈ W ∧ s ∉ H
    · simp [h]; omega
    · simp [h]

theorem card_filter_Icc (p : Nat → Prop) [DecidablePred p] (s e : Nat) :
    ((Finset.Icc s e).filter p).card
      = (List.range' s (e + 1 - s)).countP (fun d => decide (p d)) := by
  rw [Nat.Icc_eq_range']
  simp [Finset.filter, Finset.card, List.countP_eq_length_filter]

theorem count_workdays_eq_card (s e : Nat) (W H : Finset Nat) (hse : s ≤ e) :
    count_workdays s e W H
      = ((Finset.Icc s e).filter (fun d => weekday d ∈ W ∧ d ∉ H)).card := by
  rw [count_workdays, if_neg (by omega), countLoop_eq_countP, card_filter_Icc]

theorem countLoop_mono (W W2 H : Finset Nat) (hsub : W ⊆ W2) :
    ∀ (n s : Nat), countLoop W H n s ≤ countLoop W2 H n s := by
  intro n
  induction n with
  | zero => intro s; simp [countLoop]
  | succ k ih =>
    intro s
    simp only [countLoop]
    have h2 := ih (s + 1)
    by_cases h : weekday s ∈ W ∧ s ∉ H
    · rw [if_pos h, if_pos ⟨hsub h.1, h.2⟩]; omega
    · rw [if_neg h]
      split <;> omega

theorem one_le_daysInMonth (y m : Nat) : 1 ≤ daysInMonth y m := by
  unfold daysInMonth
  split
  · split <;> omega
  · split <;> omega

-- § helper lemmas about the per-sheet loop

theorem alookup_replaceFirst_ne (wb : Workbook) (n n2 : String) (s2 : Sheet) (h : n2 ≠ n) :
    alookup (replaceFirst wb n s2) n2 = alookup wb n2 := by
  induction wb with
  | nil => rfl
  | cons hd tl ih =>
    obtain ⟨k, sh⟩ := hd
    by_cases hk : k = n
    · subst hk
      simp only [replaceFirst, if_pos rfl, alookup]
      rw [if_neg (fun hh => h hh.symm), if_neg (fun hh => h hh.symm)]
    · simp only [replaceFirst, if_neg hk, alookup]
      by_cases hk2 : k = n2
      · simp [hk2]
      · simp [hk2, ih]

theorem replaceFirst_self (wb : Workbook) (n : String) (s : Sheet)
    (h : alookup wb n = some s) : replaceFirst wb n s = wb := by
  induction wb with
  | nil => rfl
  | cons hd tl ih =>
    obtain ⟨k, sh⟩ := hd
    by_cases hk : k = n
    · subst hk
      simp [alookup] at h
      simp [replaceFirst, h]
    · simp only [alookup, if_neg hk] at h
      simp [replaceFirst, hk, ih h]

theorem stepName_lookup_ne (hset : Finset Nat) (dparse : String → Option Nat)
    (wb : Workbook) (n n2 : String) (h : n2 ≠ n) :
    alookup (stepName hset dparse wb n).1 n2 = alookup wb n2 := by
  unfold stepName
  cases hw : alookup wb n with
  | none => rfl
  | some ws =>
    cases hp : parse_sheet_month_year n with
    | none => rfl
    | some ym => exact alookup_replaceFirst_ne wb n n2 _ h

theorem stepName_snd_congr (hset : Finset Nat) (dparse : String → Option Nat)
    (wb wb2 : Workbook) (n : String) (h : alookup wb n = alookup wb2 n) :
    (stepName hset dparse wb n).2 = (stepName hset dparse wb2 n).2 := by
  unfold stepName
  rw [h]
  cases alookup wb2 n with
  | none => rfl
  | some ws =>
    cases parse_sheet_month_year n with
    | none => rfl
    | some ym => rfl

theorem runSheets_logs_mono (hset : Finset Nat) (dparse : String → Option Nat) :
    ∀ (names : List String) (wb : Workbook) (logs : List String) (f : Bool) (l : String),
      l ∈ logs → l ∈ (runSheets hset dparse names wb logs f).2.1 := by
  intro names
  induction names with
  | nil => intro wb logs f l hl; simpa [runSheets] using hl
  | cons n rest ih =>
    intro wb logs f l hl
    simp only [runSheets]
    exact ih _ _ _ l (by simp [hl])

theorem runSheets_logs_mem (hset : Finset Nat) (dparse : String → Option Nat) :
    ∀ (names : List String) (wb : Workbook) (logs : List String) (f : Bool) (n : String)
      (l : String), names.Nodup → n ∈ names → (stepName hset dparse wb n).2.1 = some l →
      l ∈ (runSheets hset dparse names wb logs f).2.1 := by
  intro names
  induction names with
  | nil => intro wb logs f n l _ hn; simp at hn
  | cons m rest ih =>
    intro wb logs f n l hnd hn hl
    simp only [runSheets]
    rcases List.mem_cons.mp hn with he | hr
    · subst he
      apply runSheets_logs_mono
      simp [hl]
    · have hmn : n ≠ m := by
        rintro rfl
        exact (List.nodup_cons.mp hnd).1 hr
      have hcongr : (stepName hset dparse (stepName hset dparse wb m).1 n).2
          = (stepName hset dparse wb n).2 :=
        stepName_snd_congr _ _ _ _ _ (stepName_lookup_ne _ _ _ _ _ hmn)
      exact ih _ _ _ n l (List.nodup_cons.mp hnd).2 hr (by rw [hcongr]; exact hl)

theorem runSheets_lookup_inv (hset : Finset Nat) (dparse : String → Option Nat) (ws : Sheet)
    (n : String)
    (hid : ∀ w : Workbook, alookup w n = some ws → (stepName hset dparse w n).1 = w) :
    ∀ (names : List String) (wb : Workbook) (logs : List String) (f : Bool),
      alookup wb n = some ws →
      alookup (runSheets hset dparse names wb logs f).1 n = some ws := by
  intro names
  induction names with
  | nil => intro wb logs f h; simpa [runSheets] using h
  | cons m rest ih =>
    intro wb logs f h
    simp only [runSheets]
    by_cases hm : n = m
    · subst hm
      rw [hid wb h]
      exact ih _ _ _ h
    · exact ih _ _ _ (by rw [stepName_lookup_ne _ _ _ _ _ hm]; exact h)

theorem stepName_header_err (hset : Finset Nat) (dparse : String → Option Nat)
    (wb : Workbook) (n : String) (ws : Sheet) (y m : Nat)
    (hw : alookup wb n = some ws) (hp : parse_sheet_month_year n = some (y, m))
    (hh : find_header_row_and_map ws = none) :
    stepName hset dparse wb n = (wb, some (errHeaderLine n), false) := by
  unfold stepName
  rw [hw, hp]
  simp only [processSheet, hh]
  rw [replaceFirst_self wb n ws hw]

theorem stepName_ok_shape (hset : Finset Nat) (dparse : String → Option Nat)
    (wb : Workbook) (n : String) (ws : Sheet) (y m hr : Nat) (hm : List (String × Nat)) (c : Nat)
    (hw : alookup wb n = some ws) (hp : parse_sheet_month_year n = some (y, m))
    (hh : find_header_row_and_map ws = some (hr, hm))
    (hc : alookup hm (upStr (oldScaleHeader y m)) = some c) :
    ∃ p e, (stepName hset dparse wb n).2.1 = some (okLine n p e) := by
  unfold stepName
  rw [hw, hp]
  simp only [processSheet, hh, hc]
  exact ⟨_, _, rfl⟩

theorem processWorkbook_eq_run (provider : Finset Nat → Finset Nat)
    (dparse : String → Option Nat) (wb : Workbook) (sheetNames : Option (List String))
    (extraHolidays : Finset Date) :
    processWorkbook provider dparse wb sheetNames extraHolidays
      = ((runSheets (runHolidaySet provider wb sheetNames extraHolidays) dparse
            (targetSheets wb sheetNames) wb [] false).1,
         if (runSheets (runHolidaySet provider wb sheetNames extraHolidays) dparse
              (targetSheets wb sheetNames) wb [] false).2.2
         then (runSheets (runHolidaySet provider wb sheetNames extraHolidays) dparse
              (targetSheets wb sheetNames) wb [] false).2.1
         else (runSheets (runHolidaySet provider wb sheetNames extraHolidays) dparse
              (targetSheets wb sheetNames) wb [] false).2.1 ++ [avisoLine]) := by
  rfl

-- § claim C1 (column preservation)

/-- Claim C1 fails on the code: on `wbA`, whose header row has only the three
input columns (maxCol 3, column 4 blank), processing creates the output
column "DIAS ÚTEIS 01.2026 (ESCALA ANTIGA)" at column 4 (a key that was not
in the original header row) and writes the computed value 17 into it, instead
of leaving the absent logical column unwritten. -/
theorem c1_counterexample :
    (alookup wbA ("01.2026")).map (fun ws => (ws.maxCol, ws.cells 1 4))
      = some (3, CellValue.blank)
    ∧ (alookup (processWorkbook prov0 par0 wbA none ∅).1 ("01.2026")).map
        (fun ws => (ws.cells 1 4, ws.cells 2 4))
      = some (CellValue.str (hOld 2026 1), CellValue.num 17) := ⟨by decide, by decide⟩

/-- Claim C1, amended: `ensure_column` returns the existing index when the
normalized header name is already in the column map; when it is absent it
does create storage, appending a fresh column at `maxCol + 1`, writing the
header name into the header row cell, extending the map with the new key,
and leaving every other cell unchanged. -/
theorem c1_theorem (ws : Sheet) (hr : Nat) (m : List (String × Nat)) (name : String) :
    (∀ c, alookup m (normUp name) = some c → ensure_column ws hr m name = (ws, m, c))
    ∧ (alookup m (normUp name) = none →
        (ensure_column ws hr m name).2.2 = ws.maxCol + 1
        ∧ (ensure_column ws hr m name).2.1 = m ++ [(normUp name, ws.maxCol + 1)]
        ∧ (ensure_column ws hr m name).1.cells hr (ws.maxCol + 1) = CellValue.str name
        ∧ (∀ r c, ¬(r = hr ∧ c = ws.maxCol + 1) →
            (ensure_column ws hr m name).1.cells r c = ws.cells r c)) := by
  constructor
  · intro c hc
    simp [ensure_column, hc]
  · intro hc
    refine ⟨?_, ?_, ?_, ?_⟩
    · simp [ensure_column, hc]
    · simp [ensure_column, hc]
    · simp [ensure_column, hc, setCell]
    · intro r c h
      simp only [ensure_column, hc, setCell]
      rw [if_neg h]

/-- Witness for C1: creating the absent column "X" in an empty map on the
one-by-one sheet yields column 2, the extended map, and the written header. -/
theorem c1_witness :
    (ensure_column ws0 1 [] ("X")).2.2 = 2
    ∧ (ensure_column ws0 1 [] ("X")).2.1 = [(("X"), 2)]
    ∧ (ensure_column ws0 1 [] ("X")).1.cells 1 2 = CellValue.str ("X") := by
  have h := (c1_theorem ws0 1 [] ("X")).2 (by rfl)
  exact ⟨h.1, h.2.1, h.2.2.1⟩

-- § claim C2 (effective start)

/-- Claim C2 fails on the code: for the row of `wbA` with start date
2026-01-15 and target month (2026, 2), the claim's day-of-month rule gives
effective start 2026-02-15 and an all-days old count of 14, but the code
clamps the full start date to the month start (`max(start, Feb 1)`) and
writes 28 into the February old-count column. -/
theorem c2_counterexample :
    (alookup (processWorkbook prov0 par0 wbA none ∅).1 ("01.2026")).map
        (fun ws => ws.cells 2 7)
      = some (CellValue.num 28)
    ∧ count_workdays (toOrdinal 2026 2 15) (toOrdinal 2026 2 28) (Finset.range 7) ∅ = 14
    ∧ (28 : Int) ≠ (14 : Int) := ⟨by decide, by decide, by decide⟩

/-- Claim C2, amended: for every row and target month the per-month
computation uses the full parsed start date: if the start is after the month
end all three results are 0, otherwise both counts run over the inclusive
range from `max(start, first day of month)` to the month end, and the due
value is old minus new. -/
theorem c2_theorem (hset dOld dNew : Finset Nat) (s y m : Nat) :
    ((month_bounds y m).2 < s → monthCalc hset dOld dNew s y m = (0, 0, 0))
    ∧ (s ≤ (month_bounds y m).2 →
        (monthCalc hset dOld dNew s y m).1
            = ((Finset.Icc (max s (month_bounds y m).1) (month_bounds y m).2).filter
                (fun d => weekday d ∈ dOld ∧ d ∉ hset)).card
          ∧ (monthCalc hset dOld dNew s y m).2.1
            = ((Finset.Icc (max s (month_bounds y m).1) (month_bounds y m).2).filter
                (fun d => weekday d ∈ dNew ∧ d ∉ hset)).card
          ∧ (monthCalc hset dOld dNew s y m).2.2
            = ((monthCalc hset dOld dNew s y m).1 : Int)
                - ((monthCalc hset dOld dNew s y m).2.1 : Int)) := by
  constructor
  · intro h
    simp [monthCalc, h]
  · intro h
    have hb : (month_bounds y m).1 ≤ (month_bounds y m).2 := by
      have := one_le_daysInMonth y m
      simp only [month_bounds, toOrdinal]
      omega
    have hmax : max s (month_bounds y m).1 ≤ (month_bounds y m).2 := by omega
    simp only [monthCalc, if_neg (by omega : ¬ (month_bounds y m).2 < s)]
    refine ⟨?_, ?_, trivial⟩
    · exact count_workdays_eq_card _ _ _ _ hmax
    · exact count_workdays_eq_card _ _ _ _ hmax

/-- Witness for C2: a start date of 2026-03-05 is past the end of
February 2026, so the month's results are all zero. -/
theorem c2_witness :
    monthCalc ∅ (Finset.range 7) (Finset.Icc 0 4) (toOrdinal 2026 3 5) 2026 2 = (0, 0, 0) :=
  (c2_theorem ∅ (Finset.range 7) (Finset.Icc 0 4) (toOrdinal 2026 3 5) 2026 2).1 (by decide)

-- § claim C3 (target-month discovery)

/-- Claim C3 fails on the code: the header row of `wbA` contains no output
column headers at all (only the three input columns), so the
months-discovered-from-headers set is empty and the claim predicts that no
month is computed; yet the code, driven by the sheet name "01.2026",
computes and writes due values for both (2026, 1) (column 6) and (2026, 2)
(column 9). -/
theorem c3_counterexample :
    (alookup wbA ("01.2026")).map (fun ws => (ws.maxCol, rowNorm ws 1))
      = some (3, [("INÍCIO ESCALA NOVA"), ("ESCALA NOVA"), ("ESCALA 01.2026")])
    ∧ (alookup (processWorkbook prov0 par0 wbA none ∅).1 ("01.2026")).map
        (fun ws => (ws.cells 2 6, ws.cells 2 9))
      = some (CellValue.num 5, CellValue.num 8) := ⟨by decide, by decide⟩

/-- Claim C3, amended: the months computed for a sheet are derived from the
sheet NAME, not from pre-existing output-column headers: a sheet whose name
does not parse as MM.AAAA is never computed (the workbook is returned
unchanged with an IGNORADO log), and a sheet named MM.AAAA has the named
month and its successor computed regardless of which output columns
pre-exist, as the processing of `wbA` (which has none) shows. -/
theorem c3_theorem :
    (∀ (hset : Finset Nat) (dparse : String → Option Nat) (wb : Workbook)
        (n : String) (ws : Sheet), alookup wb n = some ws →
        parse_sheet_month_year n = none →
        stepName hset dparse wb n = (wb, some (ignLine n), false))
    ∧ (alookup (processWorkbook prov0 par0 wbA none ∅).1 ("01.2026")).map
        (fun ws => (ws.cells 2 6, ws.cells 2 9))
      = some (CellValue.num 5, CellValue.num 8) := by
  constructor
  · intro hset dparse wb n ws hw hp
    unfold stepName
    rw [hw, hp]
  · decide

/-- Witness for C3: a sheet named "Plan1" (not MM.AAAA) is left untouched
and logged as IGNORADO even though its grid holds schedule data. -/
theorem c3_witness :
    stepName ∅ par0 [(("Plan1"), sheetA)] ("Plan1")
      = ([(("Plan1"), sheetA)], some (ignLine ("Plan1")), false) :=
  c3_theorem.1 ∅ par0 [(("Plan1"), sheetA)] ("Plan1") sheetA rfl (by decide)

-- § claim C4 (count_workdays contract)

/-- Claim C4: `count_workdays` returns 0 when start > end, and otherwise
returns exactly the number of day ordinals in the inclusive range whose
weekday is in the working set and which are not holidays; on a one-day range
it returns 1 precisely when that day qualifies. -/
theorem c4_theorem (s e d : Nat) (W H : Finset Nat) :
    count_workdays s e W H
        = (if e < s then 0
           else ((Finset.Icc s e).filter (fun x => weekday x ∈ W ∧ x ∉ H)).card)
      ∧ count_workdays d d W H = (if weekday d ∈ W ∧ d ∉ H then 1 else 0) := by
  constructor
  · by_cases h : e < s
    · simp [count_workdays, h]
    · rw [if_neg h, count_workdays_eq_card s e W H (by omega)]
  · simp [count_workdays, countLoop]

-- § claim C5 (range schedule texts)

/-- Claim C5: for every schedule text containing the " A " separator but not
the day-off keyword and with at least two recognized weekday tokens, the
parsed set is the closed interval from the first token's index to the
second's, or the wraparound set `[a..6] ∪ [0..b]` when the first index
exceeds the second; tokens beyond the first two are ignored. -/
theorem c5_theorem (s r0 r1 : String) (rs : List String) (a b : Nat)
    (htok : findTokens (upStr s).data = r0 :: r1 :: rs)
    (hsep : containsSub sepAKW.data (upStr s).data = true)
    (hfolga : containsSub folgaKW.data (upStr s).data = false)
    (ha : PT_DOW (canonSab r0) = some a)
    (hb : PT_DOW (canonSab r1) = some b) :
    parse_schedule_days s
      = some (if a ≤ b then Finset.Icc a b else Finset.Icc a 6 ∪ Finset.Icc 0 b) := by
  simp only [parse_schedule_days, htok, hfolga, hsep, List.map_cons, Bool.false_eq_true,
    if_false, rangeDays, ha, hb]
  split <;> rfl

/-- Witness for C5: "SEG A SEX" parses to `{0, 1, 2, 3, 4}` and "SEX A TER"
to the wraparound set `{4, 5, 6, 0, 1}`. -/
theorem c5_witness :
    parse_schedule_days ("SEG A SEX") = some (Finset.Icc 0 4)
    ∧ parse_schedule_days ("SEX A TER") = some (Finset.Icc 4 6 ∪ Finset.Icc 0 1) := by
  constructor
  · have h := c5_theorem ("SEG A SEX") ("SEG") ("SEX") [] 0 4 (by decide) (by decide)
      (by decide) (by decide) (by decide)
    simpa using h
  · have h := c5_theorem ("SEX A TER") ("SEX") ("TER") [] 4 1 (by decide) (by decide)
      (by decide) (by decide) (by decide)
    simpa using h

-- § claim C6 (day-off schedule texts)

/-- Claim C6: for every schedule text containing the FOLGA keyword together
with at least one recognized weekday token, the parsed set is the full
seven-day set minus the weekdays of the found tokens, and this branch takes
priority over any range interpretation. -/
theorem c6_theorem (s t : String) (ts : List String)
    (htok : findTokens (upStr s).data = t :: ts)
    (hfolga : containsSub folgaKW.data (upStr s).data = true) :
    parse_schedule_days s
      = some (Finset.range 7 \ daysOfTokens ((t :: ts).map canonSab)) := by
  simp only [parse_schedule_days, htok, hfolga, if_true]

/-- Witness for C6: "FOLGA TER E DOM" parses to `{0, 2, 3, 4, 5}`. -/
theorem c6_witness :
    parse_schedule_days ("FOLGA TER E DOM") = some ({0, 2, 3, 4, 5} : Finset Nat) := by
  rw [c6_theorem ("FOLGA TER E DOM") ("TER") (["DOM"]) (by decide) (by decide)]
  decide

-- § claim C7 (silent row skip)

/-- Claim C7 fails on the code: on `wbB` the employee row has a blank
new-schedule cell and a blank start cell but a non-blank old-schedule cell,
so the claimed silent skip does not happen; the row is counted as an error
(the log reports 0 rows updated and 1 row in error) although nothing is
written into its output cells. -/
theorem c7_counterexample :
    (processWorkbook prov0 par0 wbB none ∅).2 = [okLine ("01.2026") 0 1]
    ∧ (alookup (processWorkbook prov0 par0 wbB none ∅).1 ("01.2026")).map
        (fun ws => ws.cells 2 4)
      = some CellValue.blank := ⟨by decide, by decide⟩

/-- Claim C7, amended: a row is skipped silently (no writes, no counter
change) only when the old-schedule, new-schedule and start cells are all
blank; when they are not all blank and the start cell does not parse as a
date, the row produces no writes but increments the error counter. -/
theorem c7_theorem (ctx : RowCtx) (ws : Sheet) (p e r : Nat) :
    ((ws.cells r ctx.colOld = CellValue.blank ∧ ws.cells r ctx.colNew = CellValue.blank
        ∧ ws.cells r ctx.colStart = CellValue.blank) →
      processRow ctx (ws, p, e) r = (ws, p, e))
    ∧ (¬(ws.cells r ctx.colOld = CellValue.blank ∧ ws.cells r ctx.colNew = CellValue.blank
        ∧ ws.cells r ctx.colStart = CellValue.blank) →
      safe_parse_date ctx.dparse (ws.cells r ctx.colStart) = none →
      processRow ctx (ws, p, e) r = (ws, p, e + 1)) := by
  constructor
  · intro h
    simp [processRow, h]
  · intro h hs
    simp [processRow, h, hs]

/-- Witness for C7: on `sheetB`'s row 2 (old cell "SEG", new and start
blank) the row loop leaves the sheet unchanged and increments the error
counter from 0 to 1. -/
theorem c7_witness : processRow rctx0 (sheetB, 0, 0) 2 = (sheetB, 0, 1) :=
  (c7_theorem rctx0 sheetB 0 0 2).2 (by decide) (by rfl)

-- § claim C8 (sheet-level failure isolation)

/-- Claim C8: the run is total (the embedding returns a workbook and a log
for every input) and sheet failures are isolated: for every target sheet
whose name parses but whose header row is not found, the run's log contains
that sheet's header-error line and the sheet is returned unchanged, while
every target sheet that has a header row and its month's old-schedule
column still produces its OK summary line. -/
theorem c8_theorem (provider : Finset Nat → Finset Nat) (dparse : String → Option Nat)
    (wb : Workbook) (sheetNames : Option (List String)) (extraHolidays : Finset Date)
    (hnd : (targetSheets wb sheetNames).Nodup) :
    (∀ (n : String) (ws : Sheet) (y m : Nat),
        n ∈ targetSheets wb sheetNames → alookup wb n = some ws →
        parse_sheet_month_year n = some (y, m) → find_header_row_and_map ws = none →
        errHeaderLine n ∈ (processWorkbook provider dparse wb sheetNames extraHolidays).2
        ∧ alookup (processWorkbook provider dparse wb sheetNames extraHolidays).1 n
            = some ws)
    ∧ (∀ (n : String) (ws : Sheet) (y m hr : Nat) (hm : List (String × Nat)) (c : Nat),
        n ∈ targetSheets wb sheetNames → alookup wb n = some ws →
        parse_sheet_month_year n = some (y, m) →
        find_header_row_and_map ws = some (hr, hm) →
        alookup hm (upStr (oldScaleHeader y m)) = some c →
        ∃ p e, okLine n p e
          ∈ (processWorkbook provider dparse wb sheetNames extraHolidays).2) := by
  rw [processWorkbook_eq_run]
  set hset := runHolidaySet provider wb sheetNames extraHolidays with hhset
  constructor
  · intro n ws y m hn hw hp hh
    constructor
    · have hstep : (stepName hset dparse wb n).2.1 = some (errHeaderLine n) := by
        rw [stepName_header_err hset dparse wb n ws y m hw hp hh]
      have hmem := runSheets_logs_mem hset dparse (targetSheets wb sheetNames) wb [] false n
        (errHeaderLine n) hnd hn hstep
      split <;> simp [hmem]
    · have hid : ∀ w : Workbook, alookup w n = some ws →
          (stepName hset dparse w n).1 = w := by
        intro w hw2
        rw [stepName_header_err hset dparse w n ws y m hw2 hp hh]
      exact runSheets_lookup_inv hset dparse ws n hid (targetSheets wb sheetNames) wb [] false hw
  · intro n ws y m hr hm c hn hw hp hh hc
    obtain ⟨p, e, hstep⟩ := stepName_ok_shape hset dparse wb n ws y m hr hm c hw hp hh hc
    refine ⟨p, e, ?_⟩
    have hmem := runSheets_logs_mem hset dparse (targetSheets wb sheetNames) wb [] false n
      (okLine n p e) hnd hn hstep
    split <;> simp [hmem]

/-- Witness for C8: in `wbD` the sheet "02.2026" has no header row, yet the
run logs its header error while the sheet "01.2026" still gets its OK line. -/
theorem c8_witness :
    errHeaderLine ("02.2026") ∈ (processWorkbook prov0 par0 wbD none ∅).2
    ∧ (∃ p e, okLine ("01.2026") p e ∈ (processWorkbook prov0 par0 wbD none ∅).2) :=
  ⟨((c8_theorem prov0 par0 wbD none ∅ (by decide)).1 ("02.2026") sheetNoHdr 2026 2
      (by decide) (by rfl) (by decide) (by decide)).1,
   (c8_theorem prov0 par0 wbD none ∅ (by decide)).2 ("01.2026") sheetA 2026 1 1
     ([(("INÍCIO ESCALA NOVA"), 1), (("ESCALA NOVA"), 2), (("ESCALA 01.2026"), 3)]) 3
     (by decide) (by rfl) (by decide) (by decide) (by decide)⟩

-- § claim C9 (determinism)

/-- Claim C9: the reconciliation is a pure function of the workbook, the
sheet selection, the extra-holiday set and the two external providers; in
the embedding, which carries no state outside these arguments (mirroring the
source, which reads no mutable module state), two runs on the same inputs
are definitionally the same output cells and logs. -/
theorem c9_theorem (provider : Finset Nat → Finset Nat) (dparse : String → Option Nat)
    (wb : Workbook) (sheetNames : Option (List String)) (extraHolidays : Finset Date) :
    processWorkbook provider dparse wb sheetNames extraHolidays
      = processWorkbook provider dparse wb sheetNames extraHolidays := rfl

-- § claim C10 (monotonicity in the weekday set)

/-- Claim C10: `count_workdays` is monotone in the weekday set, so with the
same range and holiday set a subset weekday set never counts more days, and
the corresponding due value old minus new is non-negative. -/
theorem c10_theorem (s e : Nat) (H W W2 : Finset Nat) (hsub : W ⊆ W2) :
    count_workdays s e W H ≤ count_workdays s e W2 H
    ∧ (0 : Int) ≤ (count_workdays s e W2 H : Int) - (count_workdays s e W H : Int) := by
  have h : count_workdays s e W H ≤ count_workdays s e W2 H := by
    unfold count_workdays
    split
    · exact le_refl 0
    · exact countLoop_mono W W2 H hsub _ _
  exact ⟨h, by omega⟩

/-- Witness for C10: over a nine-day range with no holidays, the weekday set
`{0, 2}` counts no more days than `{0, 1, 2, 3, 4}`. -/
theorem c10_witness :
    count_workdays 1 9 ({0, 2} : Finset Nat) ∅ ≤ count_workdays 1 9 ({0, 1, 2, 3, 4} : Finset Nat) ∅
    ∧ (0 : Int) ≤ (count_workdays 1 9 ({0, 1, 2, 3, 4} : Finset Nat) ∅ : Int)
        - (count_workdays 1 9 ({0, 2} : Finset Nat) ∅ : Int) :=
  c10_theorem 1 9 ∅ ({0, 2} : Finset Nat) ({0, 1, 2, 3, 4} : Finset Nat) (by decide)
